import Mathlib

/-!
Banner slider controller (`js/banner.js`).

A shallow embedding of the slider closure of `js/banner.js`: the closure
variables (`currentSlide`, `slideInterval`, `timerWidth`, `timerInterval`),
the `active` class of every slide and indicator, the width written to the
timer bar, and the host's table of repeating timers (`setInterval` /
`clearInterval`) driven by a simulated clock in milliseconds.

JavaScript numbers are modelled exactly: indices are integers, the progress
accumulator and the bar width are rationals.

The timer host is the browser, not code of the repository. It is modelled as
follows: `setInterval` issues handles in increasing order and the new timer is
first due one period after the call; `clearInterval` removes the timer with the
given handle and ignores an `undefined` or stale one; when the clock reaches a
time at which several timers are due they fire in order of registration, each
callback running to completion; a timer cleared by an earlier callback of the
same instant does not fire.
-/

namespace Banner

/-- The two closures that `banner.js` hands to `setInterval`: the autoplay
callback of `startAutoPlay` and the progress callback of `startTimer`. -/
inductive Callback where
  | autoplay
  | progress
  deriving DecidableEq

/-- One live entry of the host's table of repeating timers. -/
structure Interval where
  id : Nat
  due : Nat
  period : Nat
  cb : Callback
  deriving DecidableEq

/-- The closure state of the slider together with the part of the host it
touches. `slides` and `indicators` hold, per element, whether its class list
contains `active`; a handle variable that is still `undefined` is `none`. -/
structure State where
  slides : List Bool
  indicators : List Bool
  currentSlide : Int
  slideInterval : Option Nat
  timerWidth : ℚ
  timerInterval : Option Nat
  barWidth : ℚ
  now : Nat
  nextId : Nat
  intervals : List Interval
  deriving DecidableEq

/-- Result of running a function body: it returned, or a `TypeError` was
thrown part-way; either way the mutations made so far stay in the state. -/
inductive Outcome where
  | done (s : State)
  | threw (s : State)
  deriving DecidableEq

/-- The state left behind, whether the body returned or threw. -/
def Outcome.state : Outcome → State
  | .done s => s
  | .threw s => s

/-- Constant `slideDuration` (line 12): `const slideDuration = 5000`. -/
def slideDuration : Nat := 5000

/-- The period `100` passed to `setInterval` in `startTimer`. -/
def tickPeriod : Nat := 100

/-- Host `setInterval(cb, period)`: registers a new repeating timer, first due
one period from now, and returns its handle. -/
def setInterval (cb : Callback) (period : Nat) (s : State) : Nat × State :=
  (s.nextId,
    { s with
      nextId := s.nextId + 1
      intervals := s.intervals ++ [{ id := s.nextId, due := s.now + period, period := period, cb := cb }] })

/-- Host `clearInterval(handle)`: removes the timer with that handle if it is
live; an `undefined` or stale handle is ignored. -/
def clearInterval (h : Option Nat) (s : State) : State :=
  match h with
  | none => s
  | some i => { s with intervals := s.intervals.filter (fun iv => iv.id != i) }

/-- Body of the callback registered in `startTimer` (lines 119-124). -/
def timerTick (s : State) : State :=
  let s := { s with timerWidth := s.timerWidth + 100 / ((slideDuration : ℚ) / 100) }
  let s := { s with barWidth := s.timerWidth / (s.slides.length : ℚ) }
  if s.timerWidth ≥ 100 then { s with timerWidth := 0 } else s

/-- Function `startTimer` (lines 114-126). -/
def startTimer (s : State) : State :=
  let s := { s with timerWidth := 0 }
  let s := { s with barWidth := 0 }
  let r := setInterval .progress tickPeriod s
  { r.2 with timerInterval := some r.1 }

/-- Function `resetTimer` (lines 128-131). -/
def resetTimer (s : State) : State :=
  startTimer (clearInterval s.timerInterval s)

/-- Function `startAutoPlay` (lines 91-95). -/
def startAutoPlay (s : State) : State :=
  let r := setInterval .autoplay slideDuration s
  { r.2 with slideInterval := some r.1 }

/-- Function `pauseSlider` (lines 97-100). -/
def pauseSlider (s : State) : State :=
  clearInterval s.timerInterval (clearInterval s.slideInterval s)

/-- Function `resumeSlider` (lines 102-105). -/
def resumeSlider (s : State) : State :=
  startTimer (startAutoPlay s)

/-- Function `resetAutoPlay` (lines 107-111). -/
def resetAutoPlay (s : State) : State :=
  resetTimer (startAutoPlay (pauseSlider s))

/-- The statement `xs[i].classList.add('active')`: `none` when `xs[i]` is
`undefined`, in which case the statement throws. -/
def addActive (xs : List Bool) (i : Int) : Option (List Bool) :=
  if 0 ≤ i ∧ i.toNat < xs.length then some (xs.set i.toNat true) else none

/-- Function `showSlide` (lines 45-70). -/
def showSlide (index : Int) (s : State) : Outcome :=
  let index := if index ≥ (s.slides.length : Int) then 0 else index
  let index := if index < 0 then (s.slides.length : Int) - 1 else index
  let s := { s with slides := s.slides.map (fun _ => false) }
  let s := { s with indicators := s.indicators.map (fun _ => false) }
  let s := { s with currentSlide := index }
  match addActive s.slides s.currentSlide with
  | none => .threw s
  | some sl =>
    let s := { s with slides := sl }
    match addActive s.indicators s.currentSlide with
    | none => .threw s
    | some ind => .done (resetTimer { s with indicators := ind })

/-- Function `goToSlide` (lines 73-76). -/
def goToSlide (index : Int) (s : State) : Outcome :=
  match showSlide index s with
  | .threw s => .threw s
  | .done s => .done (resetAutoPlay s)

/-- Function `showPrevSlide` (lines 79-82). -/
def showPrevSlide (s : State) : Outcome :=
  match showSlide (s.currentSlide - 1) s with
  | .threw s => .threw s
  | .done s => .done (resetAutoPlay s)

/-- Function `showNextSlide` (lines 85-88). -/
def showNextSlide (s : State) : Outcome :=
  match showSlide (s.currentSlide + 1) s with
  | .threw s => .threw s
  | .done s => .done (resetAutoPlay s)

/-- The closure state when `initBanner` is entered (lines 4-14): the slides and
indicators as found in the document, `currentSlide = 0`, `timerWidth = 0`, both
handles `undefined`, no timer registered. -/
def initState (slides indicators : List Bool) : State :=
  { slides := slides
    indicators := indicators
    currentSlide := 0
    slideInterval := none
    timerWidth := 0
    timerInterval := none
    barWidth := 0
    now := 0
    nextId := 0
    intervals := [] }

/-- The slider part of `initBanner` (lines 17-20). -/
def initBanner (s : State) : Outcome :=
  match showSlide s.currentSlide s with
  | .threw s => .threw s
  | .done s => .done (startTimer (startAutoPlay s))

/-- Run the callback of a timer; an exception thrown by the callback is
reported by the host and the state it left stays. -/
def runCallback (cb : Callback) (s : State) : State :=
  match cb with
  | .autoplay => (showNextSlide s).state
  | .progress => timerTick s

/-- Fire the timer with handle `i` if it is still live and due now: it is
re-armed one period later and its callback runs. -/
def fire (i : Nat) (s : State) : State :=
  match s.intervals.find? (fun iv => iv.id == i) with
  | none => s
  | some iv =>
    if iv.due = s.now then
      runCallback iv.cb
        { s with intervals := s.intervals.map (fun x => if x.id = i then { x with due := x.due + x.period } else x) }
    else s

/-- Advance the simulated clock by one millisecond and fire, in order of
registration, every timer due at the new time. -/
def stepMs (s : State) : State :=
  let s := { s with now := s.now + 1 }
  ((s.intervals.filter (fun iv => iv.due == s.now)).map (fun iv => iv.id)).foldl (fun acc i => fire i acc) s

/-- Advance the simulated clock by `d` milliseconds. -/
def advance : Nat → State → State
  | 0, s => s
  | d + 1, s => advance d (stepMs s)

/-- What the registered listeners and the host's clock can do to the slider:
the `click` listeners run `showNextSlide`, `showPrevSlide` and
`goToSlide(i)`; `mouseenter` and `blur` run `pauseSlider`; `mouseleave` and
`focus` run `resumeSlider`; `elapse d` lets `d` milliseconds pass. -/
inductive Event where
  | next
  | prev
  | goTo (i : Int)
  | pause
  | resume
  | elapse (d : Nat)
  deriving DecidableEq

/-- Effect of one event; an exception thrown by a listener is reported by the
host and the state it left stays. -/
def handle (e : Event) (s : State) : State :=
  match e with
  | .next => (showNextSlide s).state
  | .prev => (showPrevSlide s).state
  | .goTo i => (goToSlide i s).state
  | .pause => pauseSlider s
  | .resume => resumeSlider s
  | .elapse d => advance d s

/-- Run a sequence of events, first to last. -/
def run (es : List Event) (s : State) : State :=
  es.foldl (fun acc e => handle e acc) s

/-- An event the page can produce: indicator `i` exists. -/
def Event.ok (n : Nat) : Event → Prop
  | .goTo i => 0 ≤ i ∧ i < (n : Int)
  | _ => True

/-- States reachable from `initBanner` on a document with the given slides and
indicators, by any sequence of events of the page. -/
inductive Reachable (slides indicators : List Bool) : State → Prop where
  | init : Reachable slides indicators (initBanner (initState slides indicators)).state
  | step (e : Event) (s : State) : Reachable slides indicators s → e.ok slides.length →
      Reachable slides indicators (handle e s)

/-- Number of autoplay actions currently scheduled. -/
def autoplayCount (s : State) : Nat :=
  (s.intervals.filter (fun iv => iv.cb == Callback.autoplay)).length

/-- Number of progress-timer actions currently scheduled. -/
def progressCount (s : State) : Nat :=
  (s.intervals.filter (fun iv => iv.cb == Callback.progress)).length

/-- Flags of `n` elements of which exactly the one at `k` is active. -/
def onlyActive (n k : Nat) : List Bool :=
  (List.replicate n false).set k true

/-- The slider shows slide `k` of `n`: `currentSlide` is `k`, and slide `k`
and indicator `k` are the only active ones. -/
def Shows (n k : Nat) (s : State) : Prop :=
  k < n ∧ s.currentSlide = (k : Int) ∧ s.slides = onlyActive n k ∧ s.indicators = onlyActive n k

/-- Some slide of `n` is shown. -/
def Valid (n : Nat) (s : State) : Prop := ∃ k, Shows n k s

/-- The controller holds the handle of a scheduled autoplay action. -/
def autoplayLive (s : State) : Prop :=
  ∃ a ∈ s.intervals, s.slideInterval = some a.id ∧ a.cb = Callback.autoplay

/-- The controller holds the handle of a scheduled progress timer. -/
def progressLive (s : State) : Prop :=
  ∃ p ∈ s.intervals, s.timerInterval = some p.id ∧ p.cb = Callback.progress

/-- Playing: the controller's autoplay action and progress timer are both
scheduled. -/
def Playing (s : State) : Prop := autoplayLive s ∧ progressLive s

/-- Paused: no autoplay action and no progress timer is scheduled. -/
def Paused (s : State) : Prop := autoplayCount s = 0 ∧ progressCount s = 0

instance (s : State) : Decidable (autoplayLive s) := by
  unfold autoplayLive
  infer_instance

instance (s : State) : Decidable (progressLive s) := by
  unfold progressLive
  infer_instance

instance (s : State) : Decidable (Playing s) := by
  unfold Playing
  infer_instance

instance (s : State) : Decidable (Paused s) := by
  unfold Paused
  infer_instance

/-- The slider right after `initBanner` on a document with three slides and
three indicators, none of them marked active in the markup. -/
def threeSlides : State :=
  (initBanner (initState [false, false, false] [false, false, false])).state

/-- A paused slider on slide 0 of three whose accumulator stands at 4: both
handles are stale and nothing is scheduled. -/
def pausedThree : State :=
  { slides := [true, false, false]
    indicators := [true, false, false]
    currentSlide := 0
    slideInterval := some 1
    timerWidth := 4
    timerInterval := some 2
    barWidth := 4 / 3
    now := 200
    nextId := 3
    intervals := [] }

/-- The slider right after `initBanner` on a document with a single slide and
a single indicator. -/
def oneSlide : State :=
  (initBanner (initState [false] [false])).state

/-! ## Frame lemmas: the timer operations leave the slides alone -/

theorem Shows.mono {n k : Nat} {s t : State} (h : Shows n k s) (h1 : t.slides = s.slides)
    (h2 : t.indicators = s.indicators) (h3 : t.currentSlide = s.currentSlide) : Shows n k t := by
  obtain ⟨a, b, c, d⟩ := h
  exact ⟨a, h3.trans b, h1.trans c, h2.trans d⟩

@[simp] theorem clearInterval_slides (h : Option Nat) (s : State) :
    (clearInterval h s).slides = s.slides := by cases h <;> rfl
@[simp] theorem clearInterval_indicators (h : Option Nat) (s : State) :
    (clearInterval h s).indicators = s.indicators := by cases h <;> rfl
@[simp] theorem clearInterval_currentSlide (h : Option Nat) (s : State) :
    (clearInterval h s).currentSlide = s.currentSlide := by cases h <;> rfl
@[simp] theorem clearInterval_slideInterval (h : Option Nat) (s : State) :
    (clearInterval h s).slideInterval = s.slideInterval := by cases h <;> rfl
@[simp] theorem clearInterval_timerInterval (h : Option Nat) (s : State) :
    (clearInterval h s).timerInterval = s.timerInterval := by cases h <;> rfl
@[simp] theorem clearInterval_timerWidth (h : Option Nat) (s : State) :
    (clearInterval h s).timerWidth = s.timerWidth := by cases h <;> rfl
@[simp] theorem clearInterval_barWidth (h : Option Nat) (s : State) :
    (clearInterval h s).barWidth = s.barWidth := by cases h <;> rfl
@[simp] theorem clearInterval_now (h : Option Nat) (s : State) :
    (clearInterval h s).now = s.now := by cases h <;> rfl
@[simp] theorem clearInterval_nextId (h : Option Nat) (s : State) :
    (clearInterval h s).nextId = s.nextId := by cases h <;> rfl

theorem Shows.clearInterval {n k : Nat} {s : State} (h : Shows n k s) (i : Option Nat) :
    Shows n k (clearInterval i s) := h.mono (by simp) (by simp) (by simp)

theorem Shows.startTimer {n k : Nat} {s : State} (h : Shows n k s) : Shows n k (startTimer s) :=
  h.mono rfl rfl rfl

theorem Shows.startAutoPlay {n k : Nat} {s : State} (h : Shows n k s) :
    Shows n k (startAutoPlay s) := h.mono rfl rfl rfl

theorem Shows.resetTimer {n k : Nat} {s : State} (h : Shows n k s) : Shows n k (resetTimer s) :=
  (h.clearInterval _).startTimer

theorem Shows.pauseSlider {n k : Nat} {s : State} (h : Shows n k s) : Shows n k (pauseSlider s) :=
  (h.clearInterval _).clearInterval _

theorem Shows.resumeSlider {n k : Nat} {s : State} (h : Shows n k s) :
    Shows n k (resumeSlider s) := h.startAutoPlay.startTimer

theorem Shows.resetAutoPlay {n k : Nat} {s : State} (h : Shows n k s) :
    Shows n k (resetAutoPlay s) := h.pauseSlider.startAutoPlay.resetTimer

theorem Shows.timerTick {n k : Nat} {s : State} (h : Shows n k s) : Shows n k (timerTick s) := by
  unfold Banner.timerTick
  dsimp only
  split <;> exact h.mono rfl rfl rfl

theorem onlyActive_length (n k : Nat) : (onlyActive n k).length = n := by
  simp [onlyActive]

theorem Shows.slides_length {n k : Nat} {s : State} (h : Shows n k s) : s.slides.length = n := by
  rw [h.2.2.1, onlyActive_length]

theorem Shows.indicators_length {n k : Nat} {s : State} (h : Shows n k s) :
    s.indicators.length = n := by
  rw [h.2.2.2, onlyActive_length]

/-- What `showSlide` does when the normalised index `k` is in range. -/
theorem showSlide_eq (idx : Int) (s : State) (n k : Nat) (hs : s.slides.length = n)
    (hi : s.indicators.length = n) (hk : k < n)
    (hn : (if (if idx ≥ (n : Int) then 0 else idx) < 0 then (n : Int) - 1
            else (if idx ≥ (n : Int) then 0 else idx)) = (k : Int)) :
    showSlide idx s = .done (resetTimer { s with
      slides := onlyActive n k
      indicators := onlyActive n k
      currentSlide := (k : Int) }) := by
  unfold showSlide onlyActive
  simp only [hs, hn, addActive]
  simp [hs, hi, hk, List.map_const']

theorem showSlide_shows (idx : Int) (s : State) (n k : Nat) (hs : s.slides.length = n)
    (hi : s.indicators.length = n) (hk : k < n)
    (hn : (if (if idx ≥ (n : Int) then 0 else idx) < 0 then (n : Int) - 1
            else (if idx ≥ (n : Int) then 0 else idx)) = (k : Int)) :
    ∃ t, showSlide idx s = .done t ∧ Shows n k t := by
  refine ⟨_, showSlide_eq idx s n k hs hi hk hn, ?_⟩
  exact Shows.resetTimer ⟨hk, rfl, rfl, rfl⟩

/-- In-range index: kept. -/
theorem norm_inRange (n k : Nat) (hk : k < n) :
    (if (if (k : Int) ≥ (n : Int) then 0 else (k : Int)) < 0 then (n : Int) - 1
      else (if (k : Int) ≥ (n : Int) then 0 else (k : Int))) = (k : Int) := by
  have : ¬ ((k : Int) ≥ (n : Int)) := by omega
  simp [this]

/-- One past the end (or further): wraps to `0`. -/
theorem norm_high (n : Nat) (idx : Int) (h : idx ≥ (n : Int)) :
    (if (if idx ≥ (n : Int) then 0 else idx) < 0 then (n : Int) - 1
      else (if idx ≥ (n : Int) then 0 else idx)) = ((0 : Nat) : Int) := by
  simp [h]

/-- Below zero: wraps to the last slide. -/
theorem norm_low (n : Nat) (hn : 1 ≤ n) (idx : Int) (h : idx < 0) :
    (if (if idx ≥ (n : Int) then 0 else idx) < 0 then (n : Int) - 1
      else (if idx ≥ (n : Int) then 0 else idx)) = ((n - 1 : Nat) : Int) := by
  have : ¬ (idx ≥ (n : Int)) := by omega
  simp [this, h]
  omega

/-! ## Navigation keeps the slider on exactly one slide -/

theorem norm_next (n k : Nat) (hk : k < n) :
    (if (if (k : Int) + 1 ≥ (n : Int) then 0 else (k : Int) + 1) < 0 then (n : Int) - 1
      else (if (k : Int) + 1 ≥ (n : Int) then 0 else (k : Int) + 1)) = (((k + 1) % n : Nat) : Int) := by
  by_cases h : k + 1 < n
  · have e := norm_inRange n (k + 1) h
    rw [Nat.mod_eq_of_lt h]
    push_cast at e ⊢
    exact e
  · have hn : k + 1 = n := by omega
    have e := norm_high n ((k : Int) + 1) (by omega)
    rw [hn, Nat.mod_self]
    exact e

theorem norm_prev (n k : Nat) (hk : k < n) :
    (if (if (k : Int) - 1 ≥ (n : Int) then 0 else (k : Int) - 1) < 0 then (n : Int) - 1
      else (if (k : Int) - 1 ≥ (n : Int) then 0 else (k : Int) - 1))
      = (((k + (n - 1)) % n : Nat) : Int) := by
  rcases Nat.eq_zero_or_pos k with h0 | hpos
  · subst h0
    have e := norm_low n (by omega) (((0 : Nat) : Int) - 1) (by omega)
    rw [Nat.zero_add, Nat.mod_eq_of_lt (by omega)]
    exact e
  · have e := norm_inRange n (k - 1) (by omega)
    have hm : (k + (n - 1)) % n = k - 1 := by
      have : k + (n - 1) = (k - 1) + n := by omega
      rw [this, Nat.add_mod_right, Nat.mod_eq_of_lt (by omega)]
    rw [hm]
    have hc : ((k - 1 : Nat) : Int) = (k : Int) - 1 := by omega
    rw [hc] at e ⊢
    exact e

theorem showNextSlide_eq {n k : Nat} {s : State} (h : Shows n k s) :
    ∃ t, showSlide (s.currentSlide + 1) s = .done t ∧ Shows n ((k + 1) % n) t ∧
      showNextSlide s = .done (resetAutoPlay t) := by
  have hk := h.1
  obtain ⟨t, ht, hsh⟩ := showSlide_shows (s.currentSlide + 1) s n ((k + 1) % n)
    h.slides_length h.indicators_length (Nat.mod_lt _ (by omega)) (by rw [h.2.1]; exact norm_next n k hk)
  refine ⟨t, ht, hsh, ?_⟩
  unfold showNextSlide
  rw [ht]

theorem showPrevSlide_eq {n k : Nat} {s : State} (h : Shows n k s) :
    ∃ t, showSlide (s.currentSlide - 1) s = .done t ∧ Shows n ((k + (n - 1)) % n) t ∧
      showPrevSlide s = .done (resetAutoPlay t) := by
  have hk := h.1
  obtain ⟨t, ht, hsh⟩ := showSlide_shows (s.currentSlide - 1) s n ((k + (n - 1)) % n)
    h.slides_length h.indicators_length (Nat.mod_lt _ (by omega)) (by rw [h.2.1]; exact norm_prev n k hk)
  refine ⟨t, ht, hsh, ?_⟩
  unfold showPrevSlide
  rw [ht]

theorem goToSlide_eq {n : Nat} {s : State} (hs : s.slides.length = n)
    (hi : s.indicators.length = n) (k : Nat) (hk : k < n) :
    ∃ t, showSlide (k : Int) s = .done t ∧ Shows n k t ∧
      goToSlide (k : Int) s = .done (resetAutoPlay t) := by
  obtain ⟨t, ht, hsh⟩ := showSlide_shows (k : Int) s n k hs hi hk (norm_inRange n k hk)
  refine ⟨t, ht, hsh, ?_⟩
  unfold goToSlide
  rw [ht]

theorem Valid.showNextSlide {n : Nat} {s : State} (h : Valid n s) :
    Valid n (showNextSlide s).state := by
  obtain ⟨k, hk⟩ := h
  obtain ⟨t, _, hsh, e⟩ := showNextSlide_eq hk
  rw [e]
  exact ⟨_, hsh.resetAutoPlay⟩

theorem Valid.showPrevSlide {n : Nat} {s : State} (h : Valid n s) :
    Valid n (showPrevSlide s).state := by
  obtain ⟨k, hk⟩ := h
  obtain ⟨t, _, hsh, e⟩ := showPrevSlide_eq hk
  rw [e]
  exact ⟨_, hsh.resetAutoPlay⟩

theorem Valid.goToSlide {n : Nat} {s : State} (h : Valid n s) (i : Int) (h0 : 0 ≤ i)
    (h1 : i < (n : Int)) : Valid n (goToSlide i s).state := by
  obtain ⟨k, hk⟩ := h
  obtain ⟨j, rfl⟩ := Int.eq_ofNat_of_zero_le h0
  obtain ⟨t, _, hsh, e⟩ := goToSlide_eq hk.slides_length hk.indicators_length j (by omega)
  rw [e]
  exact ⟨_, hsh.resetAutoPlay⟩

theorem Valid.runCallback {n : Nat} {s : State} (h : Valid n s) (cb : Callback) :
    Valid n (runCallback cb s) := by
  cases cb
  · exact h.showNextSlide
  · obtain ⟨k, hk⟩ := h
    exact ⟨k, hk.timerTick⟩

theorem Valid.fire {n : Nat} {s : State} (h : Valid n s) (i : Nat) : Valid n (fire i s) := by
  unfold Banner.fire
  split
  · exact h
  · split
    · apply Valid.runCallback
      obtain ⟨k, hk⟩ := h
      exact ⟨k, hk.mono rfl rfl rfl⟩
    · exact h

theorem Valid.foldl_fire {n : Nat} (l : List Nat) {s : State} (h : Valid n s) :
    Valid n (l.foldl (fun acc i => Banner.fire i acc) s) := by
  induction l generalizing s with
  | nil => exact h
  | cons a l ih => exact ih (h.fire a)

theorem Valid.stepMs {n : Nat} {s : State} (h : Valid n s) : Valid n (stepMs s) := by
  unfold Banner.stepMs
  apply Valid.foldl_fire
  obtain ⟨k, hk⟩ := h
  exact ⟨k, hk.mono rfl rfl rfl⟩

theorem Valid.advance {n : Nat} (d : Nat) {s : State} (h : Valid n s) : Valid n (advance d s) := by
  induction d generalizing s with
  | zero => exact h
  | succ d ih => exact ih h.stepMs

theorem Valid.handle {n : Nat} {s : State} (h : Valid n s) (e : Event) (he : e.ok n) :
    Valid n (handle e s) := by
  cases e with
  | next => exact h.showNextSlide
  | prev => exact h.showPrevSlide
  | goTo i => exact h.goToSlide i he.1 he.2
  | pause => obtain ⟨k, hk⟩ := h; exact ⟨k, hk.pauseSlider⟩
  | resume => obtain ⟨k, hk⟩ := h; exact ⟨k, hk.resumeSlider⟩
  | elapse d => exact h.advance d

theorem initBanner_eq (slides indicators : List Bool) (hn : 1 ≤ slides.length)
    (hi : indicators.length = slides.length) :
    ∃ t, showSlide 0 (initState slides indicators) = .done t ∧ Shows slides.length 0 t ∧
      initBanner (initState slides indicators) = .done (startTimer (startAutoPlay t)) := by
  obtain ⟨t, ht, hsh⟩ := showSlide_shows 0 (initState slides indicators) slides.length 0 rfl hi
    (by omega) (norm_inRange slides.length 0 (by omega))
  refine ⟨t, ht, hsh, ?_⟩
  unfold initBanner
  show (match showSlide 0 (initState slides indicators) with
    | .threw s => Outcome.threw s
    | .done s => Outcome.done (startTimer (startAutoPlay s))) = _
  rw [ht]

theorem Reachable.valid {slides indicators : List Bool} (hn : 1 ≤ slides.length)
    (hi : indicators.length = slides.length) {s : State} (h : Reachable slides indicators s) :
    Valid slides.length s := by
  induction h with
  | init =>
    obtain ⟨t, _, hsh, e⟩ := initBanner_eq slides indicators hn hi
    rw [e]
    exact ⟨0, hsh.startAutoPlay.startTimer⟩
  | step e s _ he ih => exact ih.handle e he

theorem onlyActive_getElem? (n k j : Nat) (hk : k < n) (hj : j < n) :
    (onlyActive n k)[j]? = some true ↔ j = k := by
  unfold onlyActive
  by_cases h : k = j
  · subst h
    simp [hk]
  · rw [List.getElem?_set_ne h]
    simp [hj]
    omega

theorem onlyActive_count (n k : Nat) (hk : k < n) : (onlyActive n k).count true = 1 := by
  unfold onlyActive
  induction n generalizing k with
  | zero => omega
  | succ n ih =>
    cases k with
    | zero => simp [List.replicate_succ, List.count_replicate]
    | succ k =>
      have := ih k (by omega)
      simpa [List.replicate_succ] using this

/-! ## The simulated clock -/

theorem stepMs_quiet (s : State) (h : ∀ iv ∈ s.intervals, iv.due ≠ s.now + 1) :
    stepMs s = { s with now := s.now + 1 } := by
  unfold stepMs
  have : (List.filter (fun iv => iv.due == s.now + 1) s.intervals) = [] := by
    rw [List.filter_eq_nil_iff]
    intro iv hiv
    simpa using h iv hiv
  simp [this]

theorem advance_quiet (d : Nat) (s : State) (h : ∀ iv ∈ s.intervals, s.now + d < iv.due) :
    advance d s = { s with now := s.now + d } := by
  induction d generalizing s with
  | zero => rfl
  | succ d ih =>
    have hq : stepMs s = { s with now := s.now + 1 } :=
      stepMs_quiet s (fun iv hiv => by have := h iv hiv; omega)
    show advance d (stepMs s) = _
    rw [hq, ih _ (fun iv hiv => by have := h iv hiv; show s.now + 1 + d < iv.due; omega)]
    show ({ s with now := s.now + 1 + d } : State) = _
    rw [Nat.add_assoc, Nat.add_comm 1 d]

theorem advance_succ_last (d : Nat) (s : State) : advance (d + 1) s = stepMs (advance d s) := by
  induction d generalizing s with
  | zero => rfl
  | succ d ih =>
    show advance (d + 1) (stepMs s) = stepMs (advance d (stepMs s))
    exact ih (stepMs s)

/-! ## Resuming a paused slider -/

theorem Paused.intervals_nil {s : State} (h : Paused s) : s.intervals = [] := by
  obtain ⟨ha, hp⟩ := h
  unfold autoplayCount at ha
  unfold progressCount at hp
  rw [List.length_eq_zero, List.filter_eq_nil_iff] at ha hp
  rw [List.eq_nil_iff_forall_not_mem]
  intro iv hiv
  have h1 := ha iv hiv
  have h2 := hp iv hiv
  cases hc : iv.cb <;> simp [hc] at h1 h2

theorem resumeSlider_of_nil (s : State) (h : s.intervals = []) :
    resumeSlider s = { s with
      slideInterval := some s.nextId
      timerInterval := some (s.nextId + 1)
      timerWidth := 0
      barWidth := 0
      nextId := s.nextId + 2
      intervals := [⟨s.nextId, s.now + slideDuration, slideDuration, .autoplay⟩,
        ⟨s.nextId + 1, s.now + tickPeriod, tickPeriod, .progress⟩] } := by
  simp [resumeSlider, startTimer, startAutoPlay, setInterval, h]

theorem resume_first_tick (s : State) (h : Paused s) :
    (advance tickPeriod (resumeSlider s)).timerWidth = 2 := by
  rw [resumeSlider_of_nil s h.intervals_nil]
  show (advance (99 + 1) _).timerWidth = 2
  rw [advance_succ_last, advance_quiet 99 _ (by simp [slideDuration, tickPeriod])]
  simp [stepMs, fire, runCallback, timerTick, slideDuration, tickPeriod]
  norm_num

theorem resume_before_tick (s : State) (h : Paused s) (d : Nat) (hd : d < tickPeriod) :
    (advance d (resumeSlider s)).timerWidth = 0 := by
  rw [resumeSlider_of_nil s h.intervals_nil]
  rw [advance_quiet d _ (by simp [slideDuration, tickPeriod] at hd ⊢; omega)]

/-! ## Scheduling lemmas -/

theorem mem_clearInterval (h : Option Nat) (s : State) (iv : Interval) :
    iv ∈ (clearInterval h s).intervals ↔ iv ∈ s.intervals ∧ h ≠ some iv.id := by
  cases h with
  | none => simp [clearInterval]
  | some i =>
    simp only [clearInterval, List.mem_filter, bne_iff_ne, ne_eq, Option.some.injEq]
    constructor
    · rintro ⟨a, b⟩
      exact ⟨a, fun e => b e.symm⟩
    · rintro ⟨a, b⟩
      exact ⟨a, fun e => b e.symm⟩

@[simp] theorem startAutoPlay_intervals (s : State) : (startAutoPlay s).intervals =
    s.intervals ++ [⟨s.nextId, s.now + slideDuration, slideDuration, .autoplay⟩] := rfl
@[simp] theorem startAutoPlay_slideInterval (s : State) :
    (startAutoPlay s).slideInterval = some s.nextId := rfl
@[simp] theorem startAutoPlay_timerInterval (s : State) :
    (startAutoPlay s).timerInterval = s.timerInterval := rfl
@[simp] theorem startAutoPlay_nextId (s : State) : (startAutoPlay s).nextId = s.nextId + 1 := rfl
@[simp] theorem startAutoPlay_now (s : State) : (startAutoPlay s).now = s.now := rfl
@[simp] theorem startAutoPlay_timerWidth (s : State) :
    (startAutoPlay s).timerWidth = s.timerWidth := rfl
@[simp] theorem startAutoPlay_barWidth (s : State) : (startAutoPlay s).barWidth = s.barWidth := rfl

@[simp] theorem startTimer_intervals (s : State) : (startTimer s).intervals =
    s.intervals ++ [⟨s.nextId, s.now + tickPeriod, tickPeriod, .progress⟩] := rfl
@[simp] theorem startTimer_slideInterval (s : State) :
    (startTimer s).slideInterval = s.slideInterval := rfl
@[simp] theorem startTimer_timerInterval (s : State) :
    (startTimer s).timerInterval = some s.nextId := rfl
@[simp] theorem startTimer_nextId (s : State) : (startTimer s).nextId = s.nextId + 1 := rfl
@[simp] theorem startTimer_now (s : State) : (startTimer s).now = s.now := rfl
@[simp] theorem startTimer_timerWidth (s : State) : (startTimer s).timerWidth = 0 := rfl
@[simp] theorem startTimer_barWidth (s : State) : (startTimer s).barWidth = 0 := rfl

theorem startTimer_progressLive (s : State) : progressLive (startTimer s) :=
  ⟨⟨s.nextId, s.now + tickPeriod, tickPeriod, .progress⟩, by simp, rfl, rfl⟩

theorem resetTimer_progressLive (s : State) : progressLive (resetTimer s) :=
  startTimer_progressLive _

theorem resetTimer_timerInterval (s : State) : (resetTimer s).timerInterval = some s.nextId := by
  simp [resetTimer]

theorem resetTimer_nextId (s : State) : (resetTimer s).nextId = s.nextId + 1 := by
  simp [resetTimer]

/-- After `resetAutoPlay` the controller holds the handles of a scheduled
autoplay action and a scheduled progress timer. -/
theorem resetAutoPlay_playing (t : State) (h : t.timerInterval ≠ some t.nextId) :
    Playing (resetAutoPlay t) := by
  refine ⟨?_, resetTimer_progressLive _⟩
  refine ⟨⟨t.nextId, t.now + slideDuration, slideDuration, .autoplay⟩, ?_, ?_, rfl⟩
  · unfold resetAutoPlay resetTimer
    rw [startTimer_intervals, List.mem_append]
    left
    rw [mem_clearInterval]
    refine ⟨by simp [pauseSlider], ?_⟩
    simpa [pauseSlider] using h
  · simp [resetAutoPlay, resetTimer, pauseSlider]

theorem showSlide_done_handle {idx : Int} {s t : State} (h : showSlide idx s = .done t) :
    t.timerInterval ≠ some t.nextId := by
  unfold showSlide at h
  dsimp only at h
  split at h
  · cases h
  · split at h
    · cases h
    · cases h
      rw [resetTimer_timerInterval, resetTimer_nextId]
      simp

theorem goToSlide_playing {n : Nat} {s : State} (hs : s.slides.length = n)
    (hi : s.indicators.length = n) (k : Nat) (hk : k < n) :
    Playing (goToSlide (k : Int) s).state := by
  obtain ⟨t, ht, _, e⟩ := goToSlide_eq hs hi k hk
  rw [e]
  exact resetAutoPlay_playing t (showSlide_done_handle ht)

theorem showNextSlide_playing {n k : Nat} {s : State} (h : Shows n k s) :
    Playing (showNextSlide s).state := by
  obtain ⟨t, ht, _, e⟩ := showNextSlide_eq h
  rw [e]
  exact resetAutoPlay_playing t (showSlide_done_handle ht)

theorem showPrevSlide_playing {n k : Nat} {s : State} (h : Shows n k s) :
    Playing (showPrevSlide s).state := by
  obtain ⟨t, ht, _, e⟩ := showPrevSlide_eq h
  rw [e]
  exact resetAutoPlay_playing t (showSlide_done_handle ht)

/-! ## A document with three slides -/

theorem threeSlides_eq : threeSlides =
    { slides := [true, false, false], indicators := [true, false, false], currentSlide := 0,
      slideInterval := some 1, timerWidth := 0, timerInterval := some 2, barWidth := 0, now := 0,
      nextId := 3,
      intervals := [⟨0, 100, 100, .progress⟩, ⟨1, 5000, 5000, .autoplay⟩, ⟨2, 100, 100, .progress⟩] } := by
  rfl

theorem threeSlides_advance : advance 100 threeSlides =
    { slides := [true, false, false], indicators := [true, false, false], currentSlide := 0,
      slideInterval := some 1, timerWidth := 4, timerInterval := some 2, barWidth := 4 / 3,
      now := 100, nextId := 3,
      intervals := [⟨0, 200, 100, .progress⟩, ⟨1, 5000, 5000, .autoplay⟩, ⟨2, 200, 100, .progress⟩] } := by
  rw [advance_succ_last, advance_quiet 99 _ (by decide), threeSlides_eq]
  simp [stepMs, fire, runCallback, timerTick, slideDuration]
  norm_num

theorem threeSlides_next_eq : (showNextSlide threeSlides).state =
    { slides := [false, true, false], indicators := [false, true, false], currentSlide := 1,
      slideInterval := some 4, timerWidth := 0, timerInterval := some 5, barWidth := 0, now := 0,
      nextId := 6,
      intervals := [⟨0, 100, 100, .progress⟩, ⟨4, 5000, 5000, .autoplay⟩, ⟨5, 100, 100, .progress⟩] } := by
  rfl

theorem threeSlides_next_advance : advance 100 (showNextSlide threeSlides).state =
    { slides := [false, true, false], indicators := [false, true, false], currentSlide := 1,
      slideInterval := some 4, timerWidth := 4, timerInterval := some 5, barWidth := 4 / 3,
      now := 100, nextId := 6,
      intervals := [⟨0, 200, 100, .progress⟩, ⟨4, 5000, 5000, .autoplay⟩, ⟨5, 200, 100, .progress⟩] } := by
  rw [advance_succ_last, advance_quiet 99 _ (by decide), threeSlides_next_eq]
  simp [stepMs, fire, runCallback, timerTick, slideDuration]
  norm_num

theorem threeSlides_pause_eq : pauseSlider threeSlides =
    { slides := [true, false, false], indicators := [true, false, false], currentSlide := 0,
      slideInterval := some 1, timerWidth := 0, timerInterval := some 2, barWidth := 0, now := 0,
      nextId := 3, intervals := [⟨0, 100, 100, .progress⟩] } := by
  rfl

theorem threeSlides_pause_advance : advance 100 (pauseSlider threeSlides) =
    { slides := [true, false, false], indicators := [true, false, false], currentSlide := 0,
      slideInterval := some 1, timerWidth := 2, timerInterval := some 2, barWidth := 2 / 3,
      now := 100, nextId := 3, intervals := [⟨0, 200, 100, .progress⟩] } := by
  rw [advance_succ_last, advance_quiet 99 _ (by decide), threeSlides_pause_eq]
  simp [stepMs, fire, runCallback, timerTick, slideDuration]
  norm_num

theorem pausedThree_resume_advance : advance 100 (resumeSlider pausedThree) =
    { slides := [true, false, false], indicators := [true, false, false], currentSlide := 0,
      slideInterval := some 3, timerWidth := 2, timerInterval := some 4, barWidth := 2 / 3,
      now := 300, nextId := 5,
      intervals := [⟨3, 5200, 5000, .autoplay⟩, ⟨4, 400, 100, .progress⟩] } := by
  have e : resumeSlider pausedThree =
      { slides := [true, false, false], indicators := [true, false, false], currentSlide := 0,
        slideInterval := some 3, timerWidth := 0, timerInterval := some 4, barWidth := 0,
        now := 200, nextId := 5,
        intervals := [⟨3, 5200, 5000, .autoplay⟩, ⟨4, 300, 100, .progress⟩] } := by
    rfl
  rw [advance_succ_last, advance_quiet 99 _ (by decide), e]
  simp [stepMs, fire, runCallback, timerTick, slideDuration]
  norm_num

/-! ## Navigation and the play status -/

theorem resetTimer_autoplayLive (x : State)
    (hh : x.timerInterval = none ∨ x.timerInterval ≠ x.slideInterval) :
    autoplayLive (resetTimer x) ↔ autoplayLive x := by
  have hsi : (resetTimer x).slideInterval = x.slideInterval := by simp [resetTimer]
  constructor
  · rintro ⟨a, ha, e, c⟩
    simp only [resetTimer, startTimer_intervals, List.mem_append, List.mem_singleton] at ha
    rcases ha with ha | ha
    · rw [mem_clearInterval] at ha
      exact ⟨a, ha.1, hsi ▸ e, c⟩
    · rw [ha] at c
      cases c
  · rintro ⟨a, ha, e, c⟩
    refine ⟨a, ?_, hsi.trans e, c⟩
    simp only [resetTimer, startTimer_intervals, List.mem_append]
    left
    rw [mem_clearInterval]
    refine ⟨ha, ?_⟩
    rcases hh with h0 | h1
    · rw [h0]
      simp
    · rw [← e]
      exact h1

theorem showSlide_autoplayLive {n : Nat} {s : State} (hs : s.slides.length = n)
    (hi : s.indicators.length = n) (j : Nat) (hj : j < n)
    (hh : s.timerInterval = none ∨ s.timerInterval ≠ s.slideInterval) :
    progressLive (showSlide (j : Int) s).state ∧
      (autoplayLive (showSlide (j : Int) s).state ↔ autoplayLive s) := by
  rw [showSlide_eq (j : Int) s n j hs hi hj (norm_inRange n j hj)]
  exact ⟨resetTimer_progressLive _, resetTimer_autoplayLive _ hh⟩

theorem Reachable.run_events {slides indicators : List Bool} (es : List Event) {s : State}
    (h : Reachable slides indicators s) (hes : ∀ e ∈ es, e.ok slides.length) :
    Reachable slides indicators (run es s) := by
  induction es generalizing s with
  | nil => exact h
  | cons e es ih =>
    exact ih (Reachable.step e s h (hes e (List.mem_cons_self _ _)))
      (fun x hx => hes x (List.mem_cons_of_mem _ hx))

/-! ## The progress callback, tick after tick -/

theorem timerTick_timerWidth (s : State) :
    (timerTick s).timerWidth = if s.timerWidth + 2 ≥ 100 then 0 else s.timerWidth + 2 := by
  have e : (100 : ℚ) / ((slideDuration : ℚ) / 100) = 2 := by norm_num [slideDuration]
  unfold timerTick
  dsimp only
  rw [e]
  split <;> rfl

theorem timerTick_barWidth (s : State) :
    (timerTick s).barWidth = (s.timerWidth + 2) / (s.slides.length : ℚ) := by
  have e : (100 : ℚ) / ((slideDuration : ℚ) / 100) = 2 := by norm_num [slideDuration]
  unfold timerTick
  dsimp only
  rw [e]
  split <;> rfl

theorem timerTick_slides (s : State) : (timerTick s).slides = s.slides := by
  unfold timerTick
  dsimp only
  split <;> rfl

theorem iterate_timerTick_slides (m : Nat) (s : State) : (timerTick^[m] s).slides = s.slides := by
  induction m with
  | zero => rfl
  | succ m ih => rw [Function.iterate_succ_apply', timerTick_slides, ih]

theorem iterate_timerTick_timerWidth (m : Nat) (s : State) (h0 : s.timerWidth = 0) :
    (timerTick^[m] s).timerWidth = 2 * ((m % 50 : Nat) : ℚ) := by
  induction m with
  | zero => simp [h0]
  | succ m ih =>
    rw [Function.iterate_succ_apply', timerTick_timerWidth, ih]
    have hlt : m % 50 < 50 := Nat.mod_lt _ (by decide)
    by_cases h : m % 50 = 49
    · have h1 : (m + 1) % 50 = 0 := by omega
      rw [h, h1]
      norm_num
    · have h1 : (m + 1) % 50 = m % 50 + 1 := by omega
      have h2 : m % 50 + 1 ≤ 49 := by omega
      have h3 : ((m % 50 : Nat) : ℚ) + 1 ≤ 49 := by exact_mod_cast h2
      rw [h1, if_neg (by linarith)]
      push_cast
      ring

theorem timerTick_with (s : State) (t : Nat) (l : List Interval) :
    timerTick { s with now := t, intervals := l } =
      { timerTick s with now := t, intervals := l } := by
  unfold timerTick
  dsimp only
  split <;> rfl

theorem advance_add (a b : Nat) (s : State) : advance (a + b) s = advance b (advance a s) := by
  induction a generalizing s with
  | zero => simp [advance]
  | succ a ih =>
    have : a + 1 + b = (a + b) + 1 := by omega
    rw [this]
    show advance (a + b) (stepMs s) = advance b (advance a (stepMs s))
    exact ih (stepMs s)

theorem advance_single_progress (s : State) (i : Nat)
    (h : s.intervals = [⟨i, s.now + 100, 100, .progress⟩]) :
    advance 100 s =
      timerTick { s with now := s.now + 100, intervals := [⟨i, s.now + 200, 100, .progress⟩] } := by
  rw [advance_succ_last, advance_quiet 99 _ (by simp [h])]
  simp [stepMs, fire, runCallback, h]

theorem advance_ticks (m : Nat) (s : State) (i : Nat)
    (h : s.intervals = [⟨i, s.now + 100, 100, .progress⟩]) :
    advance (100 * m) s =
      { timerTick^[m] s with
        now := s.now + 100 * m
        intervals := [⟨i, s.now + 100 * m + 100, 100, .progress⟩] } := by
  induction m with
  | zero =>
    show s = _
    cases s
    simp at h
    simp [h]
  | succ m ih =>
    have e : 100 * (m + 1) = 100 * m + 100 := by ring
    rw [e, advance_add, ih]
    dsimp only
    rw [advance_single_progress _ i rfl]
    dsimp only
    rw [timerTick_with, Function.iterate_succ_apply']
    have a1 : s.now + 100 * m + 100 = s.now + (100 * m + 100) := by omega
    have a2 : s.now + 100 * m + 200 = s.now + (100 * m + 100) + 100 := by omega
    dsimp only
    rw [a1, a2]

theorem oneSlide_pause_intervals :
    (pauseSlider oneSlide).intervals =
      [⟨0, (pauseSlider oneSlide).now + 100, 100, .progress⟩] := by
  rfl

theorem iterate_timerTick_barWidth (m : Nat) (s : State) (h0 : s.timerWidth = 0) :
    (timerTick^[m + 1] s).barWidth = (2 * ((m % 50 : Nat) : ℚ) + 2) / (s.slides.length : ℚ) := by
  rw [Function.iterate_succ_apply', timerTick_barWidth, iterate_timerTick_timerWidth m s h0,
    iterate_timerTick_slides]

theorem oneSlide_pause_5000 : (advance 5000 (pauseSlider oneSlide)).barWidth = 100 := by
  have e5 : (5000 : Nat) = 100 * 50 := by norm_num
  rw [e5, advance_ticks 50 _ 0 oneSlide_pause_intervals]
  show (timerTick^[49 + 1] (pauseSlider oneSlide)).barWidth = 100
  rw [iterate_timerTick_barWidth 49 _ rfl]
  have : ((pauseSlider oneSlide).slides.length : ℚ) = 1 := by
    have : (pauseSlider oneSlide).slides.length = 1 := by decide
    rw [this]
    norm_num
  rw [this]
  norm_num

theorem threeSlides_150_pause_eq : pauseSlider (advance 150 threeSlides) =
    { slides := [true, false, false], indicators := [true, false, false], currentSlide := 0,
      slideInterval := some 1, timerWidth := 4, timerInterval := some 2, barWidth := 4 / 3,
      now := 150, nextId := 3, intervals := [⟨0, 200, 100, .progress⟩] } := by
  have e : (150 : Nat) = 100 + 50 := rfl
  rw [e, advance_add, threeSlides_advance, advance_quiet 50 _ (by decide)]
  rfl

/-! ## Resuming any slider -/

theorem resumeSlider_intervals (s : State) : (resumeSlider s).intervals =
    s.intervals ++ [⟨s.nextId, s.now + slideDuration, slideDuration, .autoplay⟩,
      ⟨s.nextId + 1, s.now + tickPeriod, tickPeriod, .progress⟩] := by
  simp [resumeSlider]

theorem resumeSlider_quiet (s : State) (d : Nat)
    (hq : ∀ iv ∈ s.intervals, s.now + d < iv.due) (hd : d < tickPeriod) :
    ∀ iv ∈ (resumeSlider s).intervals, (resumeSlider s).now + d < iv.due := by
  intro iv hiv
  have hnow : (resumeSlider s).now = s.now := rfl
  rw [hnow]
  rw [resumeSlider_intervals, List.mem_append] at hiv
  rcases hiv with h | h
  · exact hq iv h
  · simp only [List.mem_cons, List.mem_singleton, List.not_mem_nil, or_false] at h
    have hd100 : d < 100 := hd
    rcases h with h | h
    · rw [h]
      show s.now + d < s.now + 5000
      omega
    · rw [h]
      show s.now + d < s.now + 100
      omega

theorem stepMs_single_progress (x : State) (iv : Interval)
    (hf : x.intervals.filter (fun y => y.due == x.now + 1) = [iv])
    (hfind : x.intervals.find? (fun y => y.id == iv.id) = some iv)
    (hcb : iv.cb = Callback.progress) :
    stepMs x = timerTick { x with
      now := x.now + 1
      intervals := x.intervals.map
        (fun y => if y.id = iv.id then { y with due := y.due + y.period } else y) } := by
  have hmem : iv ∈ x.intervals.filter (fun y => y.due == x.now + 1) := by
    rw [hf]
    exact List.mem_singleton_self iv
  have hdue : iv.due = x.now + 1 := by
    have := (List.mem_filter.mp hmem).2
    simpa using this
  unfold stepMs
  dsimp only
  rw [hf]
  simp only [List.map_cons, List.map_nil, List.foldl_cons, List.foldl_nil]
  unfold fire
  dsimp only
  rw [hfind]
  simp only [hdue, if_true, hcb, runCallback]

/-! ## The claims -/

/-- Claim C1: on a document with at least one slide and as many indicators, in
every state reachable from `initBanner` by next, previous, in-range goto, pause,
resume and the passing of time, `0 <= currentSlide < slideCount`, exactly one
slide and exactly one indicator are active, and they are the ones at
`currentSlide`. -/
theorem reachable_one_active (slides indicators : List Bool) (hn : 1 ≤ slides.length)
    (hi : indicators.length = slides.length) (s : State)
    (h : Reachable slides indicators s) :
    0 ≤ s.currentSlide ∧ s.currentSlide < (slides.length : Int) ∧
      s.slides.length = slides.length ∧ s.indicators.length = slides.length ∧
      s.slides.count true = 1 ∧ s.indicators.count true = 1 ∧
      (∀ j : Nat, j < slides.length → (s.slides[j]? = some true ↔ (j : Int) = s.currentSlide)) ∧
      (∀ j : Nat, j < slides.length →
        (s.indicators[j]? = some true ↔ (j : Int) = s.currentSlide)) := by
  obtain ⟨k, hk, hc, hsl, hin⟩ := h.valid hn hi
  refine ⟨by omega, by omega, ?_, ?_, ?_, ?_, ?_, ?_⟩
  · rw [hsl, onlyActive_length]
  · rw [hin, onlyActive_length]
  · rw [hsl, onlyActive_count _ _ hk]
  · rw [hin, onlyActive_count _ _ hk]
  · intro j hj
    rw [hsl, onlyActive_getElem? _ _ _ hk hj, hc]
    omega
  · intro j hj
    rw [hin, onlyActive_getElem? _ _ _ hk hj, hc]
    omega

/-- Witness for C1: three slides, after a click on indicator 2 and 5000 ms. -/
theorem reachable_one_active_witness :
    Reachable [false, false, false] [false, false, false]
        (handle (Event.elapse 5000) (handle (Event.goTo 2) threeSlides)) ∧
      (0 ≤ (handle (Event.elapse 5000) (handle (Event.goTo 2) threeSlides)).currentSlide ∧
        (handle (Event.elapse 5000) (handle (Event.goTo 2) threeSlides)).currentSlide <
          (([false, false, false] : List Bool).length : Int)) :=
  have hr : Reachable [false, false, false] [false, false, false]
      (handle (Event.elapse 5000) (handle (Event.goTo 2) threeSlides)) :=
    Reachable.step _ _ (Reachable.step _ _ Reachable.init ⟨by decide, by decide⟩) trivial
  have hc := reachable_one_active [false, false, false] [false, false, false] (by decide)
    (by decide) _ hr
  ⟨hr, hc.1, hc.2.1⟩

/-- Claim C2: with `slideCount >= 1` slides and as many indicators,
`showSlide(slideCount)` shows slide 0 and `showSlide(-1)` shows slide
`slideCount - 1`; hence `showNextSlide` from the last slide shows slide 0 and
`showPrevSlide` from slide 0 shows the last slide. -/
theorem showSlide_wraps (s : State) (n : Nat) (hn : 1 ≤ n) (hs : s.slides.length = n)
    (hi : s.indicators.length = n) :
    (∃ t, showSlide (n : Int) s = .done t ∧ Shows n 0 t) ∧
      (∃ t, showSlide (-1) s = .done t ∧ Shows n (n - 1) t) ∧
      (∃ t, showNextSlide { s with currentSlide := (n : Int) - 1 } = .done t ∧ Shows n 0 t) ∧
      (∃ t, showPrevSlide { s with currentSlide := 0 } = .done t ∧ Shows n (n - 1) t) := by
  have h0 : 0 < n := hn
  have h1 : n - 1 < n := by omega
  refine ⟨?_, ?_, ?_, ?_⟩
  · exact showSlide_shows (n : Int) s n 0 hs hi h0 (norm_high n _ (le_refl _))
  · exact showSlide_shows (-1) s n (n - 1) hs hi h1 (norm_low n hn _ (by omega))
  · obtain ⟨t, ht, hsh⟩ := showSlide_shows ((n : Int) - 1 + 1)
      { s with currentSlide := (n : Int) - 1 } n 0 hs hi h0 (norm_high n _ (by omega))
    refine ⟨resetAutoPlay t, ?_, hsh.resetAutoPlay⟩
    unfold showNextSlide
    simp only [ht]
  · obtain ⟨t, ht, hsh⟩ := showSlide_shows ((0 : Int) - 1)
      { s with currentSlide := 0 } n (n - 1) hs hi h1 (norm_low n hn _ (by omega))
    refine ⟨resetAutoPlay t, ?_, hsh.resetAutoPlay⟩
    unfold showPrevSlide
    simp only [ht]

/-- Witness for C2: the three-slide slider right after initialisation. -/
theorem showSlide_wraps_witness :
    1 ≤ 3 ∧ threeSlides.slides.length = 3 ∧ threeSlides.indicators.length = 3 ∧
      (∃ t, showSlide ((3 : Nat) : Int) threeSlides = .done t ∧ Shows 3 0 t) ∧
      (∃ t, showSlide (-1) threeSlides = .done t ∧ Shows 3 (3 - 1) t) :=
  have h := showSlide_wraps threeSlides 3 (by decide) (by decide) (by decide)
  ⟨by decide, by decide, by decide, h.1, h.2.1⟩

/-- Claim C3, evaluated where it fails: three slides, the window gains focus
while the slider plays (`resumeSlider`) and the pointer then enters the banner
(`pauseSlider`). Exactly one autoplay action is then scheduled, yet after
`goToSlide(1)` the index is 1 and two autoplay actions are scheduled, not
one. -/
theorem goToSlide_two_autoplay :
    Reachable [false, false, false] [false, false, false]
        (run [Event.resume, Event.pause] threeSlides) ∧
      autoplayCount (run [Event.resume, Event.pause] threeSlides) = 1 ∧
      (goToSlide 1 (run [Event.resume, Event.pause] threeSlides)).state.currentSlide = 1 ∧
      autoplayCount (goToSlide 1 (run [Event.resume, Event.pause] threeSlides)).state = 2 :=
  ⟨Reachable.init.run_events [Event.resume, Event.pause] (by simp [Event.ok]),
    by decide, by decide, by decide⟩

/-- Claim C4, evaluated where it fails: three slides and the event order
pointer-enter, window-blur, pointer-leave, window-focus (pause, pause, resume,
resume) leave two autoplay actions scheduled; so does a single `resumeSlider`
on the playing slider, because `resumeSlider` schedules without cancelling. -/
theorem resume_twice_two_autoplay :
    Reachable [false, false, false] [false, false, false]
        (run [Event.pause, Event.pause, Event.resume, Event.resume] threeSlides) ∧
      autoplayCount
        (run [Event.pause, Event.pause, Event.resume, Event.resume] threeSlides) = 2 ∧
      autoplayCount threeSlides = 1 ∧ autoplayCount (resumeSlider threeSlides) = 2 :=
  ⟨Reachable.init.run_events [Event.pause, Event.pause, Event.resume, Event.resume]
      (by simp [Event.ok]),
    by decide, by decide, by decide⟩

/-- Claim C5, evaluated where it fails: right after `initBanner` on three slides,
`pauseSlider` leaves one progress timer scheduled (the one `showSlide` started,
which `initBanner` replaced without cancelling), and 100 ms later the
accumulator has gone from 0 to 2 and the width from 0 to 2/3. -/
theorem pause_after_init_still_ticks :
    Reachable [false, false, false] [false, false, false] threeSlides ∧
      autoplayCount (pauseSlider threeSlides) = 0 ∧
      progressCount (pauseSlider threeSlides) = 1 ∧
      (pauseSlider threeSlides).timerWidth = 0 ∧
      (pauseSlider threeSlides).barWidth = 0 ∧
      (advance 100 (pauseSlider threeSlides)).timerWidth = 2 ∧
      (advance 100 (pauseSlider threeSlides)).barWidth = 2 / 3 := by
  refine ⟨Reachable.init, by decide, by decide, rfl, rfl, ?_, ?_⟩
  · rw [threeSlides_pause_advance]
  · rw [threeSlides_pause_advance]

/-- Claim C6: for every state, `pauseSlider` applied twice gives exactly the
state that `pauseSlider` applied once gives; `pauseSlider` is total, it never
throws. -/
theorem pauseSlider_idempotent (s : State) : pauseSlider (pauseSlider s) = pauseSlider s := by
  unfold pauseSlider
  cases hs : s.slideInterval <;> cases ht : s.timerInterval <;>
    simp [clearInterval, hs, ht, List.filter_filter]
  rename_i a t
  congr 1
  funext iv
  cases (iv.id != t) <;> cases (iv.id != a) <;> rfl

/-- Counterexample to C7: the slider resumed from pause and left playing for
100 ms has one autoplay action, one progress timer and accumulator 2; a further
`resumeSlider` makes the accumulator 0 and leaves two autoplay actions and two
progress timers. The same happens on the three-slide slider 100 ms after
initialisation (accumulator 4 to 0, autoplay actions 1 to 2), and from a paused
slider two calls leave two autoplay actions where one call leaves one. -/
theorem resume_not_idempotent :
    Playing (advance 100 (resumeSlider pausedThree)) ∧
      autoplayCount (advance 100 (resumeSlider pausedThree)) = 1 ∧
      progressCount (advance 100 (resumeSlider pausedThree)) = 1 ∧
      (advance 100 (resumeSlider pausedThree)).timerWidth = 2 ∧
      (resumeSlider (advance 100 (resumeSlider pausedThree))).timerWidth = 0 ∧
      autoplayCount (resumeSlider (advance 100 (resumeSlider pausedThree))) = 2 ∧
      progressCount (resumeSlider (advance 100 (resumeSlider pausedThree))) = 2 ∧
      Playing (advance 100 threeSlides) ∧
      (advance 100 threeSlides).timerWidth = 4 ∧
      (resumeSlider (advance 100 threeSlides)).timerWidth = 0 ∧
      autoplayCount (advance 100 threeSlides) = 1 ∧
      autoplayCount (resumeSlider (advance 100 threeSlides)) = 2 ∧
      Paused pausedThree ∧
      autoplayCount (resumeSlider pausedThree) = 1 ∧
      autoplayCount (resumeSlider (resumeSlider pausedThree)) = 2 := by
  rw [threeSlides_advance, pausedThree_resume_advance]
  exact ⟨by decide, by decide, by decide, rfl, rfl, by decide, by decide, by decide, rfl, rfl,
    by decide, by decide, by decide, by decide, by decide⟩

/-- Claim C7 as amended: for every state, `resumeSlider` leaves `currentSlide`,
the slides and the indicators unchanged, sets the accumulator and the width to
0, schedules an autoplay action due `slideDuration` later and a progress timer
due one tick later, and leaves the slider Playing; a second `resumeSlider`
agrees with the first in index, accumulator and width and leaves the slider
Playing. -/
theorem resumeSlider_restarts (s : State) :
    (resumeSlider s).currentSlide = s.currentSlide ∧
      (resumeSlider s).slides = s.slides ∧
      (resumeSlider s).indicators = s.indicators ∧
      (resumeSlider s).timerWidth = 0 ∧
      (resumeSlider s).barWidth = 0 ∧
      (⟨s.nextId, s.now + slideDuration, slideDuration, Callback.autoplay⟩ : Interval) ∈
        (resumeSlider s).intervals ∧
      (⟨s.nextId + 1, s.now + tickPeriod, tickPeriod, Callback.progress⟩ : Interval) ∈
        (resumeSlider s).intervals ∧
      Playing (resumeSlider s) ∧
      (resumeSlider (resumeSlider s)).currentSlide = (resumeSlider s).currentSlide ∧
      (resumeSlider (resumeSlider s)).timerWidth = (resumeSlider s).timerWidth ∧
      (resumeSlider (resumeSlider s)).barWidth = (resumeSlider s).barWidth ∧
      Playing (resumeSlider (resumeSlider s)) := by
  have hp : ∀ x : State, Playing (resumeSlider x) := fun x =>
    ⟨⟨⟨x.nextId, x.now + slideDuration, slideDuration, .autoplay⟩, by simp [resumeSlider],
      rfl, rfl⟩, startTimer_progressLive _⟩
  exact ⟨rfl, rfl, rfl, rfl, rfl, by simp [resumeSlider], by simp [resumeSlider], hp s,
    rfl, rfl, rfl, hp _⟩

/-- Counterexample to C8: the three-slide slider paused 150 ms after
initialisation is reachable, has no autoplay action scheduled, holds no live
progress-timer handle and has accumulator 4; after `resumeSlider` its
accumulator is 0, not 4. The same holds on a slider with nothing at all
scheduled whose accumulator is 4. -/
theorem resume_resets_accumulator :
    Reachable [false, false, false] [false, false, false]
        (pauseSlider (advance 150 threeSlides)) ∧
      autoplayCount (pauseSlider (advance 150 threeSlides)) = 0 ∧
      ¬ progressLive (pauseSlider (advance 150 threeSlides)) ∧
      (pauseSlider (advance 150 threeSlides)).timerWidth = 4 ∧
      (resumeSlider (pauseSlider (advance 150 threeSlides))).timerWidth = 0 ∧
      Paused pausedThree ∧ pausedThree.timerWidth = 4 ∧
      (resumeSlider pausedThree).timerWidth = 0 := by
  refine ⟨Reachable.step Event.pause (advance 150 threeSlides)
    (Reachable.step (Event.elapse 150) threeSlides Reachable.init trivial) trivial, ?_, ?_, ?_, ?_,
    by decide, rfl, rfl⟩
  · rw [threeSlides_150_pause_eq]
    decide
  · rw [threeSlides_150_pause_eq]
    decide
  · rw [threeSlides_150_pause_eq]
  · rw [threeSlides_150_pause_eq]
    rfl

/-- Claim C8 as amended: for every state, whatever its accumulator, after
`resumeSlider` the accumulator and the width are 0 (reset, not kept). If no
timer scheduled before the call comes due within the next `d < 100` ms, the
accumulator is still 0 after those `d` ms and a progress tick at that point
yields `0 + 100/(slideDuration/100) = 2`; in particular, when exactly one
timer comes due at the next millisecond and it is a progress timer, the
accumulator is 2 after that millisecond. -/
theorem resume_restarts_accumulator (s : State) (d : Nat)
    (hq : ∀ iv ∈ s.intervals, s.now + d < iv.due) (hd : d < tickPeriod) :
    (resumeSlider s).timerWidth = 0 ∧ (resumeSlider s).barWidth = 0 ∧
      (advance d (resumeSlider s)).timerWidth = 0 ∧
      (advance d (resumeSlider s)).barWidth = 0 ∧
      (timerTick (advance d (resumeSlider s))).timerWidth = 2 ∧
      (∀ iv : Interval,
        (resumeSlider s).intervals.filter (fun y => y.due == s.now + d + 1) = [iv] →
        (resumeSlider s).intervals.find? (fun y => y.id == iv.id) = some iv →
        iv.cb = Callback.progress →
        (advance (d + 1) (resumeSlider s)).timerWidth = 2) := by
  have hadv : advance d (resumeSlider s) = { resumeSlider s with now := s.now + d } :=
    advance_quiet d (resumeSlider s) (resumeSlider_quiet s d hq hd)
  refine ⟨rfl, rfl, by rw [hadv]; rfl, by rw [hadv]; rfl, ?_, ?_⟩
  · rw [timerTick_timerWidth, hadv]
    show (if (0 : ℚ) + 2 ≥ 100 then (0 : ℚ) else 0 + 2) = 2
    norm_num
  · intro iv hf hfind hcb
    have hstep := stepMs_single_progress { resumeSlider s with now := s.now + d } iv hf hfind hcb
    rw [advance_succ_last, hadv, hstep, timerTick_timerWidth]
    show (if (0 : ℚ) + 2 ≥ 100 then (0 : ℚ) else 0 + 2) = 2
    norm_num

/-- Witness for C8: the three-slide slider paused 150 ms after initialisation
(accumulator 4, the timer left by `initBanner` due at 200 ms). After
`resumeSlider` the accumulator is 0, it is still 0 after 49 ms, and the tick
at 200 ms makes it 2. -/
theorem resume_restarts_accumulator_witness :
    Reachable [false, false, false] [false, false, false]
        (pauseSlider (advance 150 threeSlides)) ∧
      (pauseSlider (advance 150 threeSlides)).timerWidth = 4 ∧
      (∀ iv ∈ (pauseSlider (advance 150 threeSlides)).intervals,
        (pauseSlider (advance 150 threeSlides)).now + 49 < iv.due) ∧
      (resumeSlider (pauseSlider (advance 150 threeSlides))).timerWidth = 0 ∧
      (advance 49 (resumeSlider (pauseSlider (advance 150 threeSlides)))).timerWidth = 0 ∧
      (advance (49 + 1) (resumeSlider (pauseSlider (advance 150 threeSlides)))).timerWidth = 2 :=
  have hq : ∀ iv ∈ (pauseSlider (advance 150 threeSlides)).intervals,
      (pauseSlider (advance 150 threeSlides)).now + 49 < iv.due := by
    rw [threeSlides_150_pause_eq]
    decide
  have h := resume_restarts_accumulator (pauseSlider (advance 150 threeSlides)) 49 hq (by decide)
  ⟨Reachable.step Event.pause (advance 150 threeSlides)
      (Reachable.step (Event.elapse 150) threeSlides Reachable.init trivial) trivial,
    by rw [threeSlides_150_pause_eq],
    hq, h.1, h.2.2.1,
    h.2.2.2.2.2 ⟨0, 200, 100, Callback.progress⟩
      (by rw [threeSlides_150_pause_eq]; decide)
      (by rw [threeSlides_150_pause_eq]; decide) rfl⟩

/-- Claim C9, evaluated where it fails: three slides, `showNextSlide` right
after `initBanner` gives index 1 and accumulator 0, but 100 ms later the
accumulator is 4 and the width 4/3, not 2 and 2/3: the progress timer that
`initBanner` left running ticks as well. -/
theorem tick_after_showNext_is_four :
    Reachable [false, false, false] [false, false, false] threeSlides ∧
      (showNextSlide threeSlides).state.currentSlide = 1 ∧
      (showNextSlide threeSlides).state.timerWidth = 0 ∧
      progressCount (showNextSlide threeSlides).state = 2 ∧
      (advance 100 (showNextSlide threeSlides).state).timerWidth = 4 ∧
      (advance 100 (showNextSlide threeSlides).state).barWidth = 4 / 3 := by
  refine ⟨Reachable.init, by decide, rfl, by decide, ?_, ?_⟩
  · rw [threeSlides_next_advance]
  · rw [threeSlides_next_advance]

/-- Counterexample to C10: in a state with nothing scheduled (the state in
which `initBanner` itself calls `showSlide`), `showSlide(0)` leaves a progress
timer scheduled, and `goToSlide(1)`, `showNextSlide` and `showPrevSlide` leave
an autoplay action and a progress timer scheduled: the slider is Playing. -/
theorem navigation_unpauses :
    Paused (initState [true, false, false] [true, false, false]) ∧
      progressCount (showSlide 0 (initState [true, false, false] [true, false, false])).state = 1 ∧
      autoplayCount (goToSlide 1 (initState [true, false, false] [true, false, false])).state = 1 ∧
      progressCount (goToSlide 1 (initState [true, false, false] [true, false, false])).state = 1 ∧
      Playing (goToSlide 1 (initState [true, false, false] [true, false, false])).state ∧
      Playing (showNextSlide (initState [true, false, false] [true, false, false])).state ∧
      Playing (showPrevSlide (initState [true, false, false] [true, false, false])).state ∧
      ¬ Paused (goToSlide 1 (initState [true, false, false] [true, false, false])).state :=
  ⟨by decide, by decide, by decide, by decide, by decide, by decide, by decide, by decide⟩

/-- Claim C10 as amended: in every state showing one of `n` slides,
`goToSlide(j)` with `j` in range, `showNextSlide` and `showPrevSlide` leave the
slider Playing whatever was scheduled before, so a Playing state stays Playing
and a Paused one becomes Playing; `showSlide(j)` always leaves the controller's
progress timer scheduled and, when the two handles differ, leaves the
controller's autoplay action scheduled exactly if it was. -/
theorem navigation_play_status (s : State) (n k j : Nat) (h : Shows n k s) (hj : j < n)
    (hh : s.timerInterval = none ∨ s.timerInterval ≠ s.slideInterval) :
    Playing (goToSlide (j : Int) s).state ∧
      Playing (showNextSlide s).state ∧
      Playing (showPrevSlide s).state ∧
      progressLive (showSlide (j : Int) s).state ∧
      (autoplayLive (showSlide (j : Int) s).state ↔ autoplayLive s) :=
  ⟨goToSlide_playing h.slides_length h.indicators_length j hj, showNextSlide_playing h,
    showPrevSlide_playing h,
    (showSlide_autoplayLive h.slides_length h.indicators_length j hj hh).1,
    (showSlide_autoplayLive h.slides_length h.indicators_length j hj hh).2⟩

/-- Witness for C10: the playing three-slide slider and indicator 1. -/
theorem navigation_play_status_witness :
    Shows 3 0 threeSlides ∧ 1 < 3 ∧
      (threeSlides.timerInterval = none ∨ threeSlides.timerInterval ≠ threeSlides.slideInterval) ∧
      Playing threeSlides ∧
      Playing (goToSlide ((1 : Nat) : Int) threeSlides).state :=
  have hs : Shows 3 0 threeSlides := ⟨by decide, rfl, rfl, rfl⟩
  have h := navigation_play_status threeSlides 3 0 1 hs (by decide) (Or.inr (by decide))
  ⟨hs, by decide, Or.inr (by decide), by decide, h.1⟩

/-- Counterexample to C11: with one slide, the 50th tick of a progress timer
started from accumulator 0 writes the width 100, which is not below 100. It is
reached in a run: `initBanner` on one slide, `pauseSlider`, then 5000 ms. -/
theorem width_reaches_hundred :
    oneSlide.slides.length = 1 ∧ oneSlide.timerWidth = 0 ∧
      (timerTick^[50] oneSlide).barWidth = 100 ∧
      Reachable [false] [false] (advance 5000 (pauseSlider oneSlide)) ∧
      (advance 5000 (pauseSlider oneSlide)).barWidth = 100 ∧
      ¬ (advance 5000 (pauseSlider oneSlide)).barWidth < 100 := by
  refine ⟨by decide, rfl, ?_, ?_, oneSlide_pause_5000, ?_⟩
  · show (timerTick^[49 + 1] oneSlide).barWidth = 100
    rw [iterate_timerTick_barWidth 49 _ rfl]
    have : (oneSlide.slides.length : ℚ) = 1 := by
      have : oneSlide.slides.length = 1 := by decide
      rw [this]
      norm_num
    rw [this]
    norm_num
  · exact Reachable.step (Event.elapse 5000) (pauseSlider oneSlide)
      (Reachable.step Event.pause oneSlide Reachable.init trivial) trivial
  · rw [oneSlide_pause_5000]
    norm_num

/-- Claim C11 as amended: for every state with at least one slide whose
accumulator is 0 and every number `m` of ticks of the progress callback, the
accumulator after `m` ticks is `2 * (m mod 50)`, below 100; the next tick adds
`100/(slideDuration/100) = 2`, writes the width (accumulator + 2)/slideCount
and sets the accumulator to 0 exactly when it has reached 100; every width
written lies in `(0, 100/slideCount]`, so it is at most 100, and below 100
unless there is a single slide. -/
theorem progress_ticks (s : State) (m : Nat) (h0 : s.timerWidth = 0)
    (hn : 1 ≤ s.slides.length) :
    (timerTick^[m] s).timerWidth = 2 * ((m % 50 : Nat) : ℚ) ∧
      (timerTick^[m] s).timerWidth < 100 ∧
      (100 : ℚ) / ((slideDuration : ℚ) / 100) = 2 ∧
      (timerTick^[m + 1] s).barWidth =
        ((timerTick^[m] s).timerWidth + 100 / ((slideDuration : ℚ) / 100)) /
          (s.slides.length : ℚ) ∧
      (timerTick^[m + 1] s).timerWidth =
        (if (timerTick^[m] s).timerWidth + 2 ≥ 100 then 0 else (timerTick^[m] s).timerWidth + 2) ∧
      0 < (timerTick^[m + 1] s).barWidth ∧
      (timerTick^[m + 1] s).barWidth ≤ 100 / (s.slides.length : ℚ) ∧
      (timerTick^[m + 1] s).barWidth ≤ 100 ∧
      (s.slides.length = 1 ∨ (timerTick^[m + 1] s).barWidth < 100) := by
  have e : (100 : ℚ) / ((slideDuration : ℚ) / 100) = 2 := by norm_num [slideDuration]
  have hw := iterate_timerTick_timerWidth m s h0
  have hb := iterate_timerTick_barWidth m s h0
  have hlt : m % 50 < 50 := Nat.mod_lt _ (by decide)
  have hq : ((m % 50 : Nat) : ℚ) ≤ 49 := by
    have : m % 50 ≤ 49 := by omega
    exact_mod_cast this
  have hq0 : (0 : ℚ) ≤ ((m % 50 : Nat) : ℚ) := Nat.cast_nonneg _
  have hnq : (1 : ℚ) ≤ (s.slides.length : ℚ) := by exact_mod_cast hn
  have hpos : (0 : ℚ) < (s.slides.length : ℚ) := by linarith
  have hle : (timerTick^[m + 1] s).barWidth ≤ 100 / (s.slides.length : ℚ) := by
    rw [hb]
    exact div_le_div_of_nonneg_right (by linarith) hpos.le
  have h100 : (100 : ℚ) / (s.slides.length : ℚ) ≤ 100 := div_le_self (by norm_num) hnq
  refine ⟨hw, by rw [hw]; linarith, e, ?_, ?_, ?_, hle, hle.trans h100, ?_⟩
  · rw [hb, hw, e]
  · rw [Function.iterate_succ_apply', timerTick_timerWidth]
  · rw [hb]
    exact div_pos (by linarith) hpos
  · by_cases h1 : s.slides.length = 1
    · exact Or.inl h1
    · right
      have h2 : 2 ≤ s.slides.length := by omega
      have h2q : (2 : ℚ) ≤ (s.slides.length : ℚ) := by exact_mod_cast h2
      have : (100 : ℚ) / (s.slides.length : ℚ) ≤ 50 := by
        rw [div_le_iff₀ hpos]
        linarith
      linarith

/-- Witness for C11: the three-slide slider after initialisation, seven ticks. -/
theorem progress_ticks_witness :
    threeSlides.timerWidth = 0 ∧ 1 ≤ threeSlides.slides.length ∧
      (timerTick^[7] threeSlides).timerWidth = 2 * ((7 % 50 : Nat) : ℚ) ∧
      (timerTick^[7 + 1] threeSlides).barWidth ≤ 100 :=
  have h := progress_ticks threeSlides 7 rfl (by decide)
  ⟨rfl, by decide, h.1, h.2.2.2.2.2.2.2.1⟩

/-- Counterexample to C12: with three slides `showSlide(99)` returns normally
and shows slide 0, and `showSlide(-7)` returns normally and shows slide 2;
neither lookup is out of bounds. -/
theorem showSlide_far_index_in_range :
    (∃ t, showSlide 99 threeSlides = .done t ∧ Shows 3 0 t) ∧
      (∃ t, showSlide (-7) threeSlides = .done t ∧ Shows 3 2 t) ∧
      (showSlide 99 threeSlides).state.currentSlide = 0 ∧
      (showSlide (-7) threeSlides).state.currentSlide = 2 :=
  ⟨showSlide_shows 99 threeSlides 3 0 (by decide) (by decide) (by decide) (by decide),
    showSlide_shows (-7) threeSlides 3 2 (by decide) (by decide) (by decide) (by decide),
    by decide, by decide⟩

/-- Claim C12 as amended: with `n >= 1` slides and as many indicators,
`showSlide` brings every integer index into range, however far out it is: an
index of `n` or more becomes 0, a negative index becomes `n - 1`, any other
index is kept; the call returns normally and the slide and indicator at that
index are the only active ones, so no lookup is out of bounds. -/
theorem showSlide_clamps (s : State) (n : Nat) (idx : Int) (hn : 1 ≤ n)
    (hs : s.slides.length = n) (hi : s.indicators.length = n) :
    ∃ t, showSlide idx s = .done t ∧
      Shows n (if idx ≥ (n : Int) then 0 else if idx < 0 then n - 1 else idx.toNat) t := by
  by_cases h1 : idx ≥ (n : Int)
  · rw [if_pos h1]
    exact showSlide_shows idx s n 0 hs hi hn (norm_high n idx h1)
  · rw [if_neg h1]
    by_cases h2 : idx < 0
    · rw [if_pos h2]
      exact showSlide_shows idx s n (n - 1) hs hi (by omega) (norm_low n hn idx h2)
    · rw [if_neg h2]
      obtain ⟨k, rfl⟩ := Int.eq_ofNat_of_zero_le (by omega : 0 ≤ idx)
      have hk : k < n := by omega
      rw [Int.toNat_ofNat]
      exact showSlide_shows (k : Int) s n k hs hi hk (norm_inRange n k hk)

/-- Witness for C12: `showSlide(99)` on the three-slide slider. -/
theorem showSlide_clamps_witness :
    1 ≤ 3 ∧ threeSlides.slides.length = 3 ∧ threeSlides.indicators.length = 3 ∧
      ∃ t, showSlide 99 threeSlides = .done t ∧
        Shows 3 (if (99 : Int) ≥ ((3 : Nat) : Int) then 0
          else if (99 : Int) < 0 then 3 - 1 else (99 : Int).toNat) t :=
  ⟨by decide, by decide, by decide,
    showSlide_clamps threeSlides 3 99 (by decide) (by decide) (by decide)⟩

end Banner
